import Mathlib

/-!
Verification development for the Vibe Bar backend.

This file shallowly embeds the core logic of the repository in Lean:

* `backend/app/services/openrouter.py` — the OpenRouter completion client
  (`OpenRouterService.complete` and `_make_completion_request`);
* `backend/app/services/cocktail_service.py` — prompt construction and
  response parsing of `CocktailRecipeService.generate_cocktail_recipe`;
* `backend/app/models/cocktail.py` — the recipe data model;
* `backend/app/services/community_vibes_service.py` — rating aggregation
  (`_update_recipe_rating_stats`) and paginated listing (`get_recipes`);
* `backend/app/models/community_vibes.py` — the list-response validation.

Conventions of the embedding:

* Python strings are Lean `String`s (or `List Char` where character-level
  reasoning is needed).  Python floats are modelled as exact rationals `ℚ`.
* Python truthiness (`x or default`, `if x:`) is modelled explicitly:
  `None`, `0`, `""` and `[]` are falsy.
* Exceptions become `Except`/`Option` results.  The external network call
  made by the OpenAI client is modelled as an oracle function (the
  "transport") passed in as a parameter; `complete` additionally returns
  the list of requests it issued, in order, so that attempts can be
  counted.  Wall-clock fields (`response_time`, `created_at`) and logging
  are omitted: they do not influence control flow.
-/

namespace VibeBar

/-! ## OpenRouter service (`app/services/openrouter.py`) -/

/-- `AIMessage` from `openrouter.py`: a role/content pair. -/
structure AIMessage where
  role : String
  content : String
deriving DecidableEq

/-- Raw data extracted from the external client's response
(`response.choices[0]` plus usage), before being wrapped in `AIResponse`. -/
structure RawResponse where
  content : String
  tokensUsed : Option Nat
  finishReason : Option String
deriving DecidableEq

/-- `AIResponse` from `openrouter.py`, without the wall-clock fields
(`response_time`, `created_at`). -/
structure AIResponse where
  content : String
  model_used : String
  tokens_used : Option Nat
  finish_reason : Option String
deriving DecidableEq

/-- The configuration the service copies out of `app/config.py` in its
constructor: default/fallback model, retry budget and request defaults. -/
structure ServiceConfig where
  defaultModel : String
  fallbackModel : String
  maxRetries : Nat
  aiTemperature : ℚ
  aiMaxTokens : Nat
deriving DecidableEq

/-- The request parameters assembled in `_make_completion_request`
(lines 73–79): model, messages, resolved temperature and max_tokens. -/
structure RequestParams where
  model : String
  messages : List AIMessage
  temperature : ℚ
  maxTokens : Nat
deriving DecidableEq

/-- Python `x or default` for an optional rational (`temperature or
config.AI_TEMPERATURE`): `None` and `0` are falsy. -/
def orElseNum (x : Option ℚ) (d : ℚ) : ℚ :=
  match x with
  | none => d
  | some v => if v = 0 then d else v

/-- Python `x or default` for an optional natural (`max_tokens or
config.AI_MAX_TOKENS`): `None` and `0` are falsy. -/
def orElseNat (x : Option Nat) (d : Nat) : Nat :=
  match x with
  | none => d
  | some v => if v = 0 then d else v

/-- Python `x or default` for an optional string (`model or
self.default_model`): `None` and `""` are falsy. -/
def orElseStr (x : Option String) (d : String) : String :=
  match x with
  | none => d
  | some s => if s = "" then d else s

/-- The external chat-completion endpoint, modelled as an oracle: given the
global attempt index and the request parameters it either returns raw
response data or fails (any exception from the client). -/
abbrev Transport := Nat → RequestParams → Except String RawResponse

/-- Errors raised by the service.  `apiCallFailed` is the
`OpenRouterError(f"API call failed: ...")` wrapper of line 105,
`valueError` is the messages-format `ValueError` of line 136, and
`allAttemptsFailed` is the final `OpenRouterError` of line 175. -/
inductive ORError where
  | apiCallFailed (msg : String)
  | valueError (msg : String)
  | allAttemptsFailed
deriving DecidableEq

/-- The text of the `ValueError` raised when the messages argument does not
normalize (line 136 of `openrouter.py`). -/
def messagesFormatMsg : String :=
  "Messages must be a string, list of dicts, or list of AIMessage objects"

/-- `_make_completion_request`: build the request parameters (applying the
truthiness defaults of lines 76–77), call the external client, and wrap
the outcome.  On success the result's `model_used` is the `model`
argument; on any exception an `OpenRouterError` is raised (line 105). -/
def mkRequestParams (cfg : ServiceConfig) (messages : List AIMessage) (model : String)
    (temperature : Option ℚ) (maxTokens : Option Nat) : RequestParams :=
  { model := model
    messages := messages
    temperature := orElseNum temperature cfg.aiTemperature
    maxTokens := orElseNat maxTokens cfg.aiMaxTokens }

/-- The body of `_make_completion_request` given the transport oracle and
the global attempt index `k`. -/
def makeCompletionRequest (transport : Transport) (k : Nat) (cfg : ServiceConfig)
    (messages : List AIMessage) (model : String)
    (temperature : Option ℚ) (maxTokens : Option Nat) : Except ORError AIResponse :=
  let p := mkRequestParams cfg messages model temperature maxTokens
  match transport k p with
  | .ok r =>
      .ok { content := r.content
            model_used := model
            tokens_used := r.tokensUsed
            finish_reason := r.finishReason }
  | .error e => .error (.apiCallFailed e)

/-- One `for attempt in range(n)` retry loop of `complete` (lines 141–155
and 160–173): try the request up to `n` times against `model`, returning
the first success together with the list of requests issued.  `k` is the
global attempt counter fed to the transport oracle; the `asyncio.sleep`
backoff is a pure time delay and is not modelled. -/
def retryModel (transport : Transport) (cfg : ServiceConfig) (messages : List AIMessage)
    (model : String) (temperature : Option ℚ) (maxTokens : Option Nat) :
    Nat → Nat → Option AIResponse × List RequestParams
  | 0, _ => (none, [])
  | n + 1, k =>
    match makeCompletionRequest transport k cfg messages model temperature maxTokens with
    | .ok r => (some r, [mkRequestParams cfg messages model temperature maxTokens])
    | .error _ =>
      let rest := retryModel transport cfg messages model temperature maxTokens n (k + 1)
      (rest.1, mkRequestParams cfg messages model temperature maxTokens :: rest.2)

/-- The `messages` argument of `complete`: a bare string, a list of dicts
(already shaped as role/content records; a malformed dict would be a
pydantic error, which no claim touches), or a list of `AIMessage`. -/
inductive MessagesArg where
  | ofString (s : String)
  | ofDicts (l : List AIMessage)
  | ofMessages (l : List AIMessage)

/-- The normalization at the top of `complete` (lines 128–136): a string
becomes a single user message; an empty list matches neither `list`
branch (Python's `messages and isinstance(messages[0], ...)` is falsy on
`[]`) and falls through to the `ValueError`. -/
def normalizeMessages : MessagesArg → Except ORError (List AIMessage)
  | .ofString s => .ok [⟨"user", s⟩]
  | .ofDicts l => if l.isEmpty then .error (.valueError messagesFormatMsg) else .ok l
  | .ofMessages l => if l.isEmpty then .error (.valueError messagesFormatMsg) else .ok l

/-- `OpenRouterService.complete` (lines 107–175): normalize the messages,
resolve the target model, run the primary retry loop, then — if fallback
is enabled and the fallback model differs from the target — the fallback
retry loop, and otherwise raise the all-attempts-failed error.  The
second component is the list of requests issued, in order. -/
def complete (transport : Transport) (cfg : ServiceConfig) (messages : MessagesArg)
    (model : Option String) (temperature : Option ℚ) (maxTokens : Option Nat)
    (use_fallback : Bool) : Except ORError AIResponse × List RequestParams :=
  match normalizeMessages messages with
  | .error e => (.error e, [])
  | .ok msgs =>
    let target := orElseStr model cfg.defaultModel
    let primary := retryModel transport cfg msgs target temperature maxTokens cfg.maxRetries 0
    match primary.1 with
    | some r => (.ok r, primary.2)
    | none =>
      if use_fallback && cfg.fallbackModel != target then
        let fb := retryModel transport cfg msgs cfg.fallbackModel temperature maxTokens
          cfg.maxRetries primary.2.length
        match fb.1 with
        | some r => (.ok r, primary.2 ++ fb.2)
        | none => (.error .allAttemptsFailed, primary.2 ++ fb.2)
      else
        (.error .allAttemptsFailed, primary.2)

/-! ### Lemmas about the retry loop -/

/-- A retry loop against a transport that fails every call makes exactly `n`
attempts, all with the same request parameters, and returns no response. -/
theorem retryModel_fail_all (transport : Transport) (cfg : ServiceConfig)
    (messages : List AIMessage) (model : String) (temperature : Option ℚ)
    (maxTokens : Option Nat)
    (hfail : ∀ k p, ∃ e, transport k p = Except.error e) :
    ∀ n k, retryModel transport cfg messages model temperature maxTokens n k
      = (none, List.replicate n (mkRequestParams cfg messages model temperature maxTokens)) := by
  intro n
  induction n with
  | zero => intro k; simp [retryModel]
  | succ n ih =>
    intro k
    obtain ⟨e, he⟩ := hfail k (mkRequestParams cfg messages model temperature maxTokens)
    simp [retryModel, makeCompletionRequest, he, ih, List.replicate_succ]

/-- A successful completion request reports the model it was asked to use. -/
theorem makeCompletionRequest_model_used (transport : Transport) (k : Nat)
    (cfg : ServiceConfig) (messages : List AIMessage) (model : String)
    (temperature : Option ℚ) (maxTokens : Option Nat) (r : AIResponse)
    (h : makeCompletionRequest transport k cfg messages model temperature maxTokens
      = Except.ok r) :
    r.model_used = model := by
  unfold makeCompletionRequest at h
  cases htr : transport k (mkRequestParams cfg messages model temperature maxTokens) with
  | ok raw => simp [htr] at h; rw [← h]
  | error e => simp [htr] at h

/-- A response produced by a retry loop was produced by the model the loop
was retrying. -/
theorem retryModel_model_used (transport : Transport) (cfg : ServiceConfig)
    (messages : List AIMessage) (model : String) (temperature : Option ℚ)
    (maxTokens : Option Nat) :
    ∀ n k r, (retryModel transport cfg messages model temperature maxTokens n k).1 = some r →
      r.model_used = model := by
  intro n
  induction n with
  | zero => intro k r h; simp [retryModel] at h
  | succ n ih =>
    intro k r h
    rw [retryModel] at h
    cases hreq : makeCompletionRequest transport k cfg messages model temperature maxTokens with
    | ok r' =>
      rw [hreq] at h
      simp at h
      exact h ▸ makeCompletionRequest_model_used _ _ _ _ _ _ _ _ hreq
    | error e =>
      rw [hreq] at h
      exact ih (k + 1) r h

/-- A retry loop with budget `n` issues at most `n` requests. -/
theorem retryModel_length_le (transport : Transport) (cfg : ServiceConfig)
    (messages : List AIMessage) (model : String) (temperature : Option ℚ)
    (maxTokens : Option Nat) :
    ∀ n k, ((retryModel transport cfg messages model temperature maxTokens n k).2).length ≤ n := by
  intro n
  induction n with
  | zero => intro k; simp [retryModel]
  | succ n ih =>
    intro k
    rw [retryModel]
    cases hreq : makeCompletionRequest transport k cfg messages model temperature maxTokens with
    | ok r => simp
    | error e => simpa using Nat.succ_le_succ (ih (k + 1))

/-- A retry loop that returns no response has exhausted its whole budget. -/
theorem retryModel_none_length (transport : Transport) (cfg : ServiceConfig)
    (messages : List AIMessage) (model : String) (temperature : Option ℚ)
    (maxTokens : Option Nat) :
    ∀ n k, (retryModel transport cfg messages model temperature maxTokens n k).1 = none →
      ((retryModel transport cfg messages model temperature maxTokens n k).2).length = n := by
  intro n
  induction n with
  | zero => intro k _; simp [retryModel]
  | succ n ih =>
    intro k h
    rw [retryModel] at h ⊢
    cases hreq : makeCompletionRequest transport k cfg messages model temperature maxTokens with
    | ok r => rw [hreq] at h; simp at h
    | error e =>
      rw [hreq] at h
      dsimp only at h ⊢
      rw [List.length_cons, ih (k + 1) h]

/-- A retry loop that returns a response issued at least one request. -/
theorem retryModel_some_length (transport : Transport) (cfg : ServiceConfig)
    (messages : List AIMessage) (model : String) (temperature : Option ℚ)
    (maxTokens : Option Nat) :
    ∀ n k r, (retryModel transport cfg messages model temperature maxTokens n k).1 = some r →
      1 ≤ ((retryModel transport cfg messages model temperature maxTokens n k).2).length := by
  intro n
  induction n with
  | zero => intro k r h; simp [retryModel] at h
  | succ n ih =>
    intro k r h
    rw [retryModel] at h ⊢
    cases hreq : makeCompletionRequest transport k cfg messages model temperature maxTokens with
    | ok r' => simp
    | error e => simp

/-- A retry loop with a positive budget issues at least one request. -/
theorem retryModel_pos_length (transport : Transport) (cfg : ServiceConfig)
    (messages : List AIMessage) (model : String) (temperature : Option ℚ)
    (maxTokens : Option Nat) (n k : Nat) (hn : 1 ≤ n) :
    1 ≤ ((retryModel transport cfg messages model temperature maxTokens n k).2).length := by
  cases n with
  | zero => omega
  | succ n =>
    rw [retryModel]
    cases hreq : makeCompletionRequest transport k cfg messages model temperature maxTokens with
    | ok r => simp
    | error e => simp

/-! ### Concrete instances used by the witnesses -/

/-- A transport that fails every call. -/
def failTransport : Transport := fun _ _ => .error "boom"

/-- A transport that answers every call with the same raw response. -/
def succTransport : Transport := fun _ _ => .ok ⟨"resp", none, none⟩

/-- A concrete service configuration (distinct primary and fallback models,
retry budget 3, the config-default temperature 0.7 and max_tokens 1000). -/
def cfgA : ServiceConfig := ⟨"model-a", "model-b", 3, 7/10, 1000⟩

/-! ### Claims about the completion client -/

/-- C1: against a transport that fails every attempt, `complete()` makes
exactly `maxRetries` attempts against the target model then, with
fallback enabled and a fallback model different from the target, exactly
`maxRetries` more against the fallback model, raises the
all-attempts-failed error, and issues `2 * maxRetries` requests total. -/
theorem complete_retry_count (transport : Transport) (cfg : ServiceConfig)
    (messages : MessagesArg) (msgs : List AIMessage) (model : Option String)
    (temperature : Option ℚ) (maxTokens : Option Nat)
    (hfail : ∀ k p, ∃ e, transport k p = Except.error e)
    (hnorm : normalizeMessages messages = .ok msgs)
    (hdiff : cfg.fallbackModel ≠ orElseStr model cfg.defaultModel) :
    (complete transport cfg messages model temperature maxTokens true).1
        = .error .allAttemptsFailed ∧
    ((complete transport cfg messages model temperature maxTokens true).2).map
        RequestParams.model
      = List.replicate cfg.maxRetries (orElseStr model cfg.defaultModel)
          ++ List.replicate cfg.maxRetries cfg.fallbackModel ∧
    ((complete transport cfg messages model temperature maxTokens true).2).length
      = 2 * cfg.maxRetries := by
  have hbne : (cfg.fallbackModel != orElseStr model cfg.defaultModel) = true :=
    bne_iff_ne.mpr hdiff
  have h1 := retryModel_fail_all transport cfg msgs (orElseStr model cfg.defaultModel)
    temperature maxTokens hfail cfg.maxRetries 0
  have h2 := retryModel_fail_all transport cfg msgs cfg.fallbackModel
    temperature maxTokens hfail cfg.maxRetries cfg.maxRetries
  refine ⟨?_, ?_, ?_⟩ <;>
    simp [complete, hnorm, h1, h2, hbne, mkRequestParams, two_mul]

/-- Witness for C1 at a concrete failing transport and configuration. -/
theorem complete_retry_count_witness :
    (complete failTransport cfgA (.ofString "hello") none none none true).1
        = .error .allAttemptsFailed ∧
    ((complete failTransport cfgA (.ofString "hello") none none none true).2).map
        RequestParams.model
      = List.replicate 3 "model-a" ++ List.replicate 3 "model-b" ∧
    ((complete failTransport cfgA (.ofString "hello") none none none true).2).length
      = 2 * 3 :=
  complete_retry_count failTransport cfgA (.ofString "hello") [⟨"user", "hello"⟩]
    none none none (fun _ _ => ⟨"boom", rfl⟩) rfl (by decide)

/-- C7 (amended form not needed — the claim holds): a successful result of
`complete()` carries in `model_used` the model that produced it: the
resolved target model when the primary loop succeeded (at most
`maxRetries` requests issued), the configured fallback model when the
fallback loop succeeded (more than `maxRetries` requests issued). -/
theorem complete_model_used (transport : Transport) (cfg : ServiceConfig)
    (messages : MessagesArg) (model : Option String) (temperature : Option ℚ)
    (maxTokens : Option Nat) (fb : Bool) (r : AIResponse) (trace : List RequestParams)
    (h : complete transport cfg messages model temperature maxTokens fb = (.ok r, trace)) :
    (trace.length ≤ cfg.maxRetries ∧ r.model_used = orElseStr model cfg.defaultModel)
    ∨ (cfg.maxRetries < trace.length ∧ r.model_used = cfg.fallbackModel) := by
  unfold complete at h
  cases hnorm : normalizeMessages messages with
  | error e => rw [hnorm] at h; simp at h
  | ok msgs =>
    rw [hnorm] at h
    simp only at h
    cases hp : (retryModel transport cfg msgs (orElseStr model cfg.defaultModel)
        temperature maxTokens cfg.maxRetries 0).1 with
    | some r' =>
      rw [hp] at h
      simp only [Prod.mk.injEq, Except.ok.injEq] at h
      obtain ⟨hr, ht⟩ := h
      subst hr; subst ht
      left
      exact ⟨retryModel_length_le transport cfg msgs _ temperature maxTokens _ _,
        retryModel_model_used transport cfg msgs _ temperature maxTokens _ _ _ hp⟩
    | none =>
      rw [hp] at h
      by_cases hc : (fb && cfg.fallbackModel != orElseStr model cfg.defaultModel) = true
      · rw [if_pos hc] at h
        cases hf : (retryModel transport cfg msgs cfg.fallbackModel temperature maxTokens
            cfg.maxRetries (retryModel transport cfg msgs (orElseStr model cfg.defaultModel)
              temperature maxTokens cfg.maxRetries 0).2.length).1 with
        | some r' =>
          rw [hf] at h
          simp only [Prod.mk.injEq, Except.ok.injEq] at h
          obtain ⟨hr, ht⟩ := h
          subst hr; subst ht
          right
          have hlen1 := retryModel_none_length transport cfg msgs
            (orElseStr model cfg.defaultModel) temperature maxTokens cfg.maxRetries 0 hp
          have hlen2 := retryModel_some_length transport cfg msgs cfg.fallbackModel
            temperature maxTokens cfg.maxRetries _ _ hf
          constructor
          · rw [List.length_append, hlen1]
            rw [hlen1] at hlen2
            omega
          · exact retryModel_model_used transport cfg msgs cfg.fallbackModel
              temperature maxTokens _ _ _ hf
        | none => rw [hf] at h; simp at h
      · rw [if_neg hc] at h; simp at h

/-- Witness for C7: a transport that succeeds immediately yields a result
whose `model_used` is the resolved primary model. -/
theorem complete_model_used_witness :
    ([mkRequestParams cfgA [⟨"user", "hi"⟩] "model-a" none none].length ≤ cfgA.maxRetries ∧
      (AIResponse.mk "resp" "model-a" none none).model_used
        = orElseStr none cfgA.defaultModel)
    ∨ (cfgA.maxRetries < [mkRequestParams cfgA [⟨"user", "hi"⟩] "model-a" none none].length ∧
      (AIResponse.mk "resp" "model-a" none none).model_used = cfgA.fallbackModel) :=
  complete_model_used succTransport cfgA (.ofString "hi") none none none true
    (AIResponse.mk "resp" "model-a" none none)
    [mkRequestParams cfgA [⟨"user", "hi"⟩] "model-a" none none] rfl

/-- C9: an explicit `temperature` (resp. `max_tokens`) of `0` is replaced by
the configured default because the defaults are applied with Python
truthiness (`temperature or config.AI_TEMPERATURE`); any non-zero
explicit value is sent unchanged. -/
theorem request_param_defaults (cfg : ServiceConfig) (messages : List AIMessage)
    (model : String) (t : ℚ) (m : Nat) :
    (mkRequestParams cfg messages model (some 0) none).temperature = cfg.aiTemperature ∧
    (mkRequestParams cfg messages model none (some 0)).maxTokens = cfg.aiMaxTokens ∧
    (t ≠ 0 → (mkRequestParams cfg messages model (some t) none).temperature = t) ∧
    (m ≠ 0 → (mkRequestParams cfg messages model none (some m)).maxTokens = m) := by
  refine ⟨by simp [mkRequestParams, orElseNum], by simp [mkRequestParams, orElseNat],
    fun h => ?_, fun h => ?_⟩
  · simp [mkRequestParams, orElseNum, h]
  · simp [mkRequestParams, orElseNat, h]

/-- Witness for C9 at temperature `1/2` and max_tokens `500`. -/
theorem request_param_defaults_witness :
    (mkRequestParams cfgA [] "m" (some 0) none).temperature = cfgA.aiTemperature ∧
    (mkRequestParams cfgA [] "m" none (some 0)).maxTokens = cfgA.aiMaxTokens ∧
    (mkRequestParams cfgA [] "m" (some (1/2)) none).temperature = 1/2 ∧
    (mkRequestParams cfgA [] "m" none (some 500)).maxTokens = 500 :=
  ⟨(request_param_defaults cfgA [] "m" (1/2) 500).1,
   (request_param_defaults cfgA [] "m" (1/2) 500).2.1,
   (request_param_defaults cfgA [] "m" (1/2) 500).2.2.1 (by norm_num),
   (request_param_defaults cfgA [] "m" (1/2) 500).2.2.2 (by norm_num)⟩

/-- C3 counterexample: a conversation consisting of a single message with
empty content is not rejected — with a transport that answers, the call
returns a successful response rather than failing with any error. -/
theorem complete_empty_content_counterexample :
    (complete succTransport cfgA (.ofMessages [⟨"user", ""⟩]) none none none true).1
      = .ok ⟨"resp", "model-a", none, none⟩ := rfl

/-- C3 as amended: `complete()` raises the messages-format `ValueError` when
the conversation has zero messages (empty list of dicts or of messages);
a single message with empty content is not rejected — when the retry
budget is positive at least one request is issued for it. -/
theorem complete_empty_input (transport : Transport) (cfg : ServiceConfig)
    (model : Option String) (temperature : Option ℚ) (maxTokens : Option Nat) (fb : Bool) :
    (complete transport cfg (.ofMessages []) model temperature maxTokens fb).1
        = .error (.valueError messagesFormatMsg) ∧
    (complete transport cfg (.ofDicts []) model temperature maxTokens fb).1
        = .error (.valueError messagesFormatMsg) ∧
    (1 ≤ cfg.maxRetries →
      1 ≤ (complete transport cfg (.ofString "") model temperature maxTokens fb).2.length) := by
  refine ⟨rfl, rfl, fun hn => ?_⟩
  unfold complete
  simp only [normalizeMessages]
  have hpos := retryModel_pos_length transport cfg [⟨"user", ""⟩]
    (orElseStr model cfg.defaultModel) temperature maxTokens cfg.maxRetries 0 hn
  cases hp : (retryModel transport cfg [⟨"user", ""⟩] (orElseStr model cfg.defaultModel)
      temperature maxTokens cfg.maxRetries 0).1 with
  | some r => simpa using hpos
  | none =>
    dsimp only
    by_cases hc : (fb && cfg.fallbackModel != orElseStr model cfg.defaultModel) = true
    · rw [if_pos hc]
      cases hf : (retryModel transport cfg [⟨"user", ""⟩] cfg.fallbackModel temperature maxTokens
          cfg.maxRetries (retryModel transport cfg [⟨"user", ""⟩]
            (orElseStr model cfg.defaultModel) temperature maxTokens cfg.maxRetries 0).2.length).1 with
      | some r => dsimp only; rw [List.length_append]; omega
      | none => dsimp only; rw [List.length_append]; omega
    · rw [if_neg hc]
      simpa using hpos

/-- Witness for C3's amended claim at the concrete failing transport. -/
theorem complete_empty_input_witness :
    (complete failTransport cfgA (.ofMessages []) none none none true).1
        = .error (.valueError messagesFormatMsg) ∧
    (complete failTransport cfgA (.ofDicts []) none none none true).1
        = .error (.valueError messagesFormatMsg) ∧
    1 ≤ (complete failTransport cfgA (.ofString "") none none none true).2.length :=
  ⟨(complete_empty_input failTransport cfgA none none none true).1,
   (complete_empty_input failTransport cfgA none none none true).2.1,
   (complete_empty_input failTransport cfgA none none none true).2.2 (by decide)⟩

/-! ## Cocktail recipe service (`app/services/cocktail_service.py`) -/

/-- `UserPreferences` from `app/models/cocktail.py`. -/
structure UserPreferences where
  ingredients : List String
  customIngredients : Option String
  flavors : List String
  strength : Option String
  vibe : Option String
  specialRequests : Option String
deriving DecidableEq

/-- Python truthiness of an `Optional[str]`: `None` and `""` are falsy. -/
def optTruthy (o : Option String) : Bool :=
  match o with
  | none => false
  | some s => !(s == "")

/-- Python truthiness of a list: the empty list is falsy. -/
def listTruthy (l : List String) : Bool := !l.isEmpty

/-- Python `", ".join(...)`. -/
def joinComma (l : List String) : String := String.intercalate ", " l

/-- The generic line appended when `not any([ingredients, flavors, vibe])`
(line 68 of `cocktail_service.py`). -/
def genericLine : String := "Create a creative and delicious cocktail recipe."

/-- The closing instruction appended at line 70 of `cocktail_service.py`. -/
def jsonOnlyInstruction : String :=
  "\nRespond with ONLY the JSON object, no markdown or extra text."

/-- The per-field part of the user prompt (lines 54–65 of
`cocktail_service.py`): the header plus one line per truthy preference
field, in source order. -/
def userPromptFields (p : UserPreferences) : String :=
  let up := "Create a cocktail recipe with these preferences:\n"
  let up := if listTruthy p.ingredients then
      up ++ "Base ingredients: " ++ joinComma p.ingredients ++ "\n" else up
  let up := if optTruthy p.customIngredients then
      up ++ "Additional ingredients: " ++ p.customIngredients.getD "" ++ "\n" else up
  let up := if listTruthy p.flavors then
      up ++ "Flavor profiles: " ++ joinComma p.flavors ++ "\n" else up
  let up := if optTruthy p.vibe then up ++ "Vibe: " ++ p.vibe.getD "" ++ "\n" else up
  let up := if optTruthy p.specialRequests then
      up ++ "Special requests: " ++ p.specialRequests.getD "" ++ "\n" else up
  up

/-- The full user prompt of `generate_cocktail_recipe` (lines 54–70): the
per-field lines, then — when `ingredients`, `flavors` and `vibe` are all
falsy — the generic line, then the JSON-only instruction. -/
def buildUserPrompt (p : UserPreferences) : String :=
  let up := userPromptFields p
  let up := if !(listTruthy p.ingredients || listTruthy p.flavors || optTruthy p.vibe) then
      up ++ genericLine ++ "\n" else up
  up ++ jsonOnlyInstruction

/-- If a string is a middle segment of a concatenation in the shape the
prompt builder produces, its characters occur contiguously in the
result. -/
theorem generic_segment_occurs (u : String) :
    genericLine.data <:+: ((u ++ genericLine ++ "\n") ++ jsonOnlyInstruction).data :=
  ⟨u.data, "\n".data ++ jsonOnlyInstruction.data, by
    show u.data ++ genericLine.data ++ ("\n".data ++ jsonOnlyInstruction.data) = _
    simp [String.data_append]⟩

/-- C6 counterexample: with only `customIngredients` populated (a populated
preference field), the generated user turn still contains the generic
"create something creative" line, contrary to the claim that the generic
line appears only when no preference field is populated. -/
theorem buildUserPrompt_counterexample :
    optTruthy (UserPreferences.mk [] (some "mint") [] none none none).customIngredients
        = true ∧
    genericLine.data
      <:+: (buildUserPrompt (UserPreferences.mk [] (some "mint") [] none none none)).data :=
  ⟨by decide,
   generic_segment_occurs (userPromptFields (UserPreferences.mk [] (some "mint") [] none none none))⟩

/-- C6 as amended: the generic line is appended exactly when `ingredients`,
`flavors` and `vibe` are all unpopulated; `customIngredients` and
`specialRequests` are not consulted by the check, and when the generic
line is appended it is added after the per-field lines rather than
substituted for them. -/
theorem buildUserPrompt_generic_condition (p : UserPreferences) :
    ((listTruthy p.ingredients || listTruthy p.flavors || optTruthy p.vibe) = false →
      buildUserPrompt p = userPromptFields p ++ genericLine ++ "\n" ++ jsonOnlyInstruction ∧
      genericLine.data <:+: (buildUserPrompt p).data) ∧
    ((listTruthy p.ingredients || listTruthy p.flavors || optTruthy p.vibe) = true →
      buildUserPrompt p = userPromptFields p ++ jsonOnlyInstruction) := by
  constructor
  · intro h
    have heq : buildUserPrompt p
        = userPromptFields p ++ genericLine ++ "\n" ++ jsonOnlyInstruction := by
      simp [buildUserPrompt, h]
    exact ⟨heq, heq ▸ generic_segment_occurs (userPromptFields p)⟩
  · intro h
    simp [buildUserPrompt, h]

/-- Witness for C6's amended claim: an all-empty preference bag gets the
generic line; a bag with an ingredient does not. -/
theorem buildUserPrompt_generic_condition_witness :
    (buildUserPrompt (UserPreferences.mk [] none [] none none none)
        = userPromptFields (UserPreferences.mk [] none [] none none none)
            ++ genericLine ++ "\n" ++ jsonOnlyInstruction ∧
      genericLine.data
        <:+: (buildUserPrompt (UserPreferences.mk [] none [] none none none)).data) ∧
    buildUserPrompt (UserPreferences.mk ["gin"] none [] none none none)
      = userPromptFields (UserPreferences.mk ["gin"] none [] none none none)
          ++ jsonOnlyInstruction :=
  ⟨(buildUserPrompt_generic_condition (UserPreferences.mk [] none [] none none none)).1
      (by decide),
   (buildUserPrompt_generic_condition (UserPreferences.mk ["gin"] none [] none none none)).2
      (by decide)⟩

/-! ### Markdown-fence stripping (lines 88–95 of `cocktail_service.py`) -/

/-- The whitespace characters removed by Python `str.strip()`. -/
def isPySpace (c : Char) : Bool :=
  c == ' ' || c == '\t' || c == '\n' || c == '\r' || c == '\x0b' || c == '\x0c'

/-- Python `str.strip()` on the character list of a string: drop whitespace
from both ends. -/
def pyStrip (l : List Char) : List Char :=
  ((l.dropWhile isPySpace).reverse.dropWhile isPySpace).reverse

/-- The fence-stripping step of `generate_cocktail_recipe`:
`strip`, drop a leading ```` ```json ````, drop a leading ```` ``` ````,
drop a trailing ```` ``` ````, `strip` again.  Python slicing
`content[:-3]` is `take (length - 3)`. -/
def stripFences (l : List Char) : List Char :=
  let content := pyStrip l
  let content := if ("```json".data).isPrefixOf content then content.drop 7 else content
  let content := if ("```".data).isPrefixOf content then content.drop 3 else content
  let content := if ("```".data).isSuffixOf content then
      content.take (content.length - 3) else content
  pyStrip content

/-- C8 counterexample: `" a "` does not begin or end with a fence (even
after trimming) yet the stripping step changes it, because the step also
trims whitespace — so the step is not the identity on all unfenced
strings. -/
theorem stripFences_counterexample :
    ("```".data).isPrefixOf (pyStrip " a ".data) = false ∧
    ("```".data).isSuffixOf (pyStrip " a ".data) = false ∧
    stripFences " a ".data ≠ " a ".data := by decide

/-- C8 as amended: on a string that is already whitespace-trimmed and does
not begin or end with a triple-backtick fence, the stripping step is the
identity, and hence applying it twice equals applying it once there. -/
theorem stripFences_unfenced_noop (l : List Char)
    (ht : pyStrip l = l)
    (h1 : ("```".data).isPrefixOf l = false)
    (h2 : ("```".data).isSuffixOf l = false) :
    stripFences l = l ∧ stripFences (stripFences l) = stripFences l := by
  have hjson : ("```json".data).isPrefixOf l = false := by
    by_contra hc
    rw [Bool.not_eq_false, List.isPrefixOf_iff_prefix] at hc
    have h3 : "```".data <+: "```json".data := by decide
    have := List.isPrefixOf_iff_prefix.mpr (h3.trans hc)
    rw [this] at h1
    exact Bool.true_eq_false.mp h1
  have hid : stripFences l = l := by
    simp [stripFences, ht, hjson, h1, h2]
  exact ⟨hid, by rw [hid]; exact hid⟩

/-- Witness for C8's amended claim on the trimmed, unfenced string
`"hello"`. -/
theorem stripFences_unfenced_noop_witness :
    stripFences "hello".data = "hello".data ∧
    stripFences (stripFences "hello".data) = stripFences "hello".data :=
  stripFences_unfenced_noop "hello".data (by decide) (by decide) (by decide)

/-! ### Response parsing (lines 98–107 of `cocktail_service.py`)

The decoded `json.loads` value is modelled by `JsonValue`; a decoded
object is a list of key/value pairs.  Python evaluates the keyword
arguments of the `CocktailRecipe(...)` call left to right — every dict
access (a `KeyError` on a missing key, a `TypeError` on indexing or
iterating a non-container) happens before pydantic validates field
types — so the embedding has an argument-evaluation phase (`evalArgs`)
followed by a validation phase (`validateRecipe`). -/

/-- A decoded JSON value. -/
inductive JsonValue where
  | jstr (s : String)
  | jnum (q : ℚ)
  | jbool (b : Bool)
  | jnull
  | jarr (items : List JsonValue)
  | jobj (fields : List (String × JsonValue))

/-- `RecipeMeta` from `app/models/cocktail.py`. -/
structure RecipeMeta where
  text : String
deriving DecidableEq

/-- `RecipeIngredient` from `app/models/cocktail.py`. -/
structure RecipeIngredient where
  name : String
  amount : String
deriving DecidableEq

/-- `RecipeDetail` from `app/models/cocktail.py`. -/
structure RecipeDetail where
  title : String
  content : String
deriving DecidableEq

/-- `CocktailRecipe` from `app/models/cocktail.py`.  Note: no field has a
minimum-length constraint. -/
structure CocktailRecipe where
  recipeTitle : String
  recipeDescription : String
  recipeMeta : List RecipeMeta
  recipeIngredients : List RecipeIngredient
  recipeInstructions : List String
  recipeDetails : List RecipeDetail
deriving DecidableEq

/-- Errors of the parsing step: `keyMissing k` is Python's `KeyError(k)`,
`typeError` a `TypeError` from indexing/iterating a non-container, and
`validationError` a pydantic type-validation failure. -/
inductive ParseError where
  | keyMissing (k : String)
  | typeError
  | validationError
deriving DecidableEq

/-- Key lookup in a decoded JSON object (`recipe_data[k]` without the
raising; `json.loads` produces unique keys). -/
def jlookup (fields : List (String × JsonValue)) (k : String) : Option JsonValue :=
  (fields.find? (fun f => f.1 == k)).map (fun f => f.2)

/-- `obj[k]`: raises `KeyError(k)` when the key is absent. -/
def getKey (fields : List (String × JsonValue)) (k : String) : Except ParseError JsonValue :=
  match jlookup fields k with
  | some v => .ok v
  | none => .error (.keyMissing k)

/-- Iterating a value as a list during argument evaluation; every non-list
case ends in a `TypeError` in the Python code. -/
def asArr : JsonValue → Except ParseError (List JsonValue)
  | .jarr items => .ok items
  | _ => .error .typeError

/-- Indexing a value as a dict during argument evaluation. -/
def asObj : JsonValue → Except ParseError (List (String × JsonValue))
  | .jobj fields => .ok fields
  | _ => .error .typeError

/-- A Python list comprehension over `Except`: left to right, first raise
wins. -/
def mapExcept (f : α → Except ParseError β) : List α → Except ParseError (List β)
  | [] => .ok []
  | x :: xs => (f x).bind fun y => (mapExcept f xs).bind fun ys => .ok (y :: ys)

/-- Reduction of `Except.bind` on a success. -/
theorem exceptBind_ok (a : α) (f : α → Except ε β) : (Except.ok a).bind f = f a := rfl

/-- Reduction of `Except.bind` on a raised error. -/
theorem exceptBind_error (e : ε) (f : α → Except ε β) :
    (Except.error e : Except ε α).bind f = Except.error e := rfl

/-- The body of the `recipeMeta` comprehension: `RecipeMeta(text=meta["text"])`
argument evaluation. -/
def metaItemEval (item : JsonValue) : Except ParseError JsonValue :=
  (asObj item).bind fun o => getKey o "text"

/-- The body of the `recipeIngredients` comprehension: `ing["name"]`,
`ing["amount"]` argument evaluation. -/
def ingItemEval (item : JsonValue) : Except ParseError (JsonValue × JsonValue) :=
  (asObj item).bind fun o =>
  (getKey o "name").bind fun n =>
  (getKey o "amount").bind fun a => .ok (n, a)

/-- The body of the `recipeDetails` comprehension: `detail["title"]`,
`detail["content"]` argument evaluation. -/
def detItemEval (item : JsonValue) : Except ParseError (JsonValue × JsonValue) :=
  (asObj item).bind fun o =>
  (getKey o "title").bind fun t =>
  (getKey o "content").bind fun c => .ok (t, c)

/-- The raw keyword arguments of the `CocktailRecipe(...)` call, after the
dict accesses but before pydantic validation. -/
structure RawArgs where
  title : JsonValue
  desc : JsonValue
  metas : List JsonValue
  ings : List (JsonValue × JsonValue)
  instr : JsonValue
  dets : List (JsonValue × JsonValue)

/-- Argument evaluation for `CocktailRecipe(...)` (lines 100–107), in the
source's left-to-right order: `recipe_data["recipeTitle"]`,
`recipe_data["recipeDescription"]`, the `recipeMeta` comprehension, the
`recipeIngredients` comprehension, `recipe_data["recipeInstructions"]`
(passed through unchanged), the `recipeDetails` comprehension. -/
def evalArgs (fields : List (String × JsonValue)) : Except ParseError RawArgs :=
  (getKey fields "recipeTitle").bind fun title =>
  (getKey fields "recipeDescription").bind fun desc =>
  ((getKey fields "recipeMeta").bind asArr).bind fun metaItems =>
  (mapExcept metaItemEval metaItems).bind fun metas =>
  ((getKey fields "recipeIngredients").bind asArr).bind fun ingItems =>
  (mapExcept ingItemEval ingItems).bind fun ings =>
  (getKey fields "recipeInstructions").bind fun instr =>
  ((getKey fields "recipeDetails").bind asArr).bind fun detItems =>
  (mapExcept detItemEval detItems).bind fun dets =>
  .ok ⟨title, desc, metas, ings, instr, dets⟩

/-- Pydantic validation of a `str` field. -/
def asStr : JsonValue → Except ParseError String
  | .jstr s => .ok s
  | _ => .error .validationError

/-- Pydantic validation of the outer shape of a `List[str]` field. -/
def asStrArr : JsonValue → Except ParseError (List JsonValue)
  | .jarr items => .ok items
  | _ => .error .validationError

/-- Pydantic validation of one evaluated ingredient pair. -/
def ingPairValidate (p : JsonValue × JsonValue) : Except ParseError RecipeIngredient :=
  (asStr p.1).bind fun n => (asStr p.2).bind fun am => .ok (RecipeIngredient.mk n am)

/-- Pydantic validation of one evaluated detail pair. -/
def detPairValidate (p : JsonValue × JsonValue) : Except ParseError RecipeDetail :=
  (asStr p.1).bind fun t => (asStr p.2).bind fun c => .ok (RecipeDetail.mk t c)

/-- Pydantic validation of the evaluated arguments, in field order.  No
minimum length is enforced on any list. -/
def validateRecipe (a : RawArgs) : Except ParseError CocktailRecipe :=
  (asStr a.title).bind fun title =>
  (asStr a.desc).bind fun desc =>
  (mapExcept asStr a.metas).bind fun metas =>
  (mapExcept ingPairValidate a.ings).bind fun ings =>
  (asStrArr a.instr).bind fun instrItems =>
  (mapExcept asStr instrItems).bind fun instr =>
  (mapExcept detPairValidate a.dets).bind fun dets =>
  .ok ⟨title, desc, metas.map RecipeMeta.mk, ings, instr, dets⟩

/-- The whole parsing step of `generate_cocktail_recipe` on a decoded JSON
object: evaluate the constructor arguments, then validate. -/
def parseRecipeData (fields : List (String × JsonValue)) : Except ParseError CocktailRecipe :=
  (evalArgs fields).bind validateRecipe

/-- A well-shaped decoded reply carrying the given field contents. -/
def mkReplyFields (t d : String) (ms : List String) (ings : List (String × String))
    (instr : List String) (dets : List (String × String)) : List (String × JsonValue) :=
  [("recipeTitle", .jstr t), ("recipeDescription", .jstr d),
   ("recipeMeta", .jarr (ms.map fun s => .jobj [("text", .jstr s)])),
   ("recipeIngredients", .jarr (ings.map fun p =>
      .jobj [("name", .jstr p.1), ("amount", .jstr p.2)])),
   ("recipeInstructions", .jarr (instr.map .jstr)),
   ("recipeDetails", .jarr (dets.map fun p =>
      .jobj [("title", .jstr p.1), ("content", .jstr p.2)]))]

/-- Remove one key from a decoded object. -/
def removeKey (fields : List (String × JsonValue)) (k : String) : List (String × JsonValue) :=
  fields.filter fun f => f.1 != k

/-- The keys the claims call required: title, description, ingredients,
instructions. -/
def requiredKeys : List String :=
  ["recipeTitle", "recipeDescription", "recipeIngredients", "recipeInstructions"]

/-! ### Lemmas about parsing well-shaped replies -/

/-- The `recipeMeta` comprehension succeeds on well-shaped items. -/
theorem mapExcept_meta (ms : List String) :
    mapExcept metaItemEval (ms.map fun s => JsonValue.jobj [("text", .jstr s)])
      = .ok (ms.map .jstr) := by
  induction ms with
  | nil => rfl
  | cons s t ih =>
    simp only [List.map_cons, mapExcept, ih]
    simp [metaItemEval, asObj, getKey, jlookup, exceptBind_ok]

/-- The `recipeIngredients` comprehension succeeds on well-shaped items. -/
theorem mapExcept_ings (ings : List (String × String)) :
    mapExcept ingItemEval (ings.map fun p =>
        JsonValue.jobj [("name", .jstr p.1), ("amount", .jstr p.2)])
    = .ok (ings.map fun p => (JsonValue.jstr p.1, JsonValue.jstr p.2)) := by
  induction ings with
  | nil => rfl
  | cons s t ih =>
    simp only [List.map_cons, mapExcept, ih]
    simp [ingItemEval, asObj, getKey, jlookup, exceptBind_ok]

/-- The `recipeDetails` comprehension succeeds on well-shaped items. -/
theorem mapExcept_dets (dets : List (String × String)) :
    mapExcept detItemEval (dets.map fun p =>
        JsonValue.jobj [("title", .jstr p.1), ("content", .jstr p.2)])
    = .ok (dets.map fun p => (JsonValue.jstr p.1, JsonValue.jstr p.2)) := by
  induction dets with
  | nil => rfl
  | cons s t ih =>
    simp only [List.map_cons, mapExcept, ih]
    simp [detItemEval, asObj, getKey, jlookup, exceptBind_ok]

/-- String validation succeeds on a list of JSON strings. -/
theorem mapExcept_asStr (ms : List String) :
    mapExcept asStr (ms.map .jstr) = .ok ms := by
  induction ms with
  | nil => rfl
  | cons s t ih =>
    simp only [List.map_cons, mapExcept, ih]
    simp [asStr, exceptBind_ok]

/-- Ingredient validation succeeds on pairs of JSON strings. -/
theorem mapExcept_vIngs (l : List (String × String)) :
    mapExcept ingPairValidate (l.map fun p => (JsonValue.jstr p.1, JsonValue.jstr p.2))
    = .ok (l.map fun p => RecipeIngredient.mk p.1 p.2) := by
  induction l with
  | nil => rfl
  | cons s t ih =>
    simp only [List.map_cons, mapExcept, ih]
    simp [ingPairValidate, asStr, exceptBind_ok]

/-- Detail validation succeeds on pairs of JSON strings. -/
theorem mapExcept_vDets (l : List (String × String)) :
    mapExcept detPairValidate (l.map fun p => (JsonValue.jstr p.1, JsonValue.jstr p.2))
    = .ok (l.map fun p => RecipeDetail.mk p.1 p.2) := by
  induction l with
  | nil => rfl
  | cons s t ih =>
    simp only [List.map_cons, mapExcept, ih]
    simp [detPairValidate, asStr, exceptBind_ok]

/-- C2 counterexample: a decoded reply with all required keys but empty
`recipeIngredients` and `recipeInstructions` arrays parses successfully
into a `CocktailRecipe` with zero ingredients and zero instructions — it
is not treated as a validation failure. -/
theorem parse_empty_lists_counterexample :
    parseRecipeData (mkReplyFields "Title" "Desc" [] [] [] [])
      = .ok (CocktailRecipe.mk "Title" "Desc" [] [] [] []) ∧
    (CocktailRecipe.mk "Title" "Desc" [] [] [] []).recipeIngredients = [] ∧
    (CocktailRecipe.mk "Title" "Desc" [] [] [] []).recipeInstructions = [] :=
  ⟨rfl, rfl, rfl⟩

/-- C2 as amended: the recipe generator enforces no minimum length on
ingredients or instructions — for every well-shaped decoded reply,
including one with empty arrays, parsing succeeds and the `Recipe`'s
lists are exactly the reply's arrays, in order. -/
theorem parseRecipeData_round_trip (t d : String) (ms : List String)
    (ings : List (String × String)) (instr : List String)
    (dets : List (String × String)) :
    parseRecipeData (mkReplyFields t d ms ings instr dets)
      = .ok ⟨t, d, ms.map RecipeMeta.mk, ings.map (fun p => RecipeIngredient.mk p.1 p.2),
          instr, dets.map (fun p => RecipeDetail.mk p.1 p.2)⟩ := by
  simp [parseRecipeData, evalArgs, validateRecipe, mkReplyFields, getKey, jlookup,
    asArr, asStr, asStrArr, exceptBind_ok, exceptBind_error, mapExcept_meta,
    mapExcept_ings, mapExcept_dets, mapExcept_asStr, mapExcept_vIngs, mapExcept_vDets]

/-- A successful `obj[k]` means the key is present. -/
theorem getKey_ok_isSome (fields : List (String × JsonValue)) (k : String) (v : JsonValue)
    (h : getKey fields k = .ok v) : (jlookup fields k).isSome := by
  unfold getKey at h
  cases hx : jlookup fields k with
  | some w => simp [hx]
  | none => rw [hx] at h; simp at h

/-- If argument evaluation for `CocktailRecipe(...)` succeeds, every
required key was present in the decoded reply. -/
theorem evalArgs_ok_isSome (fields : List (String × JsonValue)) (a : RawArgs)
    (h : evalArgs fields = .ok a) :
    (jlookup fields "recipeTitle").isSome ∧ (jlookup fields "recipeDescription").isSome ∧
    (jlookup fields "recipeIngredients").isSome ∧
    (jlookup fields "recipeInstructions").isSome := by
  unfold evalArgs at h
  cases h1 : getKey fields "recipeTitle" with
  | error e => rw [h1] at h; simp only [exceptBind_error] at h; exact Except.noConfusion h
  | ok title =>
  rw [h1] at h; simp only [exceptBind_ok] at h
  cases h2 : getKey fields "recipeDescription" with
  | error e => rw [h2] at h; simp only [exceptBind_error] at h; exact Except.noConfusion h
  | ok desc =>
  rw [h2] at h; simp only [exceptBind_ok] at h
  cases h3 : (getKey fields "recipeMeta").bind asArr with
  | error e => rw [h3] at h; simp only [exceptBind_error] at h; exact Except.noConfusion h
  | ok metaItems =>
  rw [h3] at h; simp only [exceptBind_ok] at h
  cases h4 : mapExcept metaItemEval metaItems with
  | error e => rw [h4] at h; simp only [exceptBind_error] at h; exact Except.noConfusion h
  | ok metas =>
  rw [h4] at h; simp only [exceptBind_ok] at h
  cases h5 : getKey fields "recipeIngredients" with
  | error e => rw [h5] at h; simp only [exceptBind_error] at h; exact Except.noConfusion h
  | ok ingV =>
  rw [h5] at h; simp only [exceptBind_ok, exceptBind_error] at h
  cases h6 : asArr ingV with
  | error e => rw [h6] at h; simp only [exceptBind_error] at h; exact Except.noConfusion h
  | ok ingItems =>
  rw [h6] at h; simp only [exceptBind_ok] at h
  cases h7 : mapExcept ingItemEval ingItems with
  | error e => rw [h7] at h; simp only [exceptBind_error] at h; exact Except.noConfusion h
  | ok ings =>
  rw [h7] at h; simp only [exceptBind_ok] at h
  cases h8 : getKey fields "recipeInstructions" with
  | error e => rw [h8] at h; simp only [exceptBind_error] at h; exact Except.noConfusion h
  | ok instr =>
  exact ⟨getKey_ok_isSome _ _ _ h1, getKey_ok_isSome _ _ _ h2,
    getKey_ok_isSome _ _ _ h5, getKey_ok_isSome _ _ _ h8⟩

/-- C4: a decoded reply lacking a required key (title, description,
ingredients or instructions) never parses into a `Recipe` — in
particular no silently empty instructions list is produced — and when
the reply is otherwise well-shaped the failure is the missing-key error
naming exactly the absent key. -/
theorem parse_missing_required_key :
    (∀ (fields : List (String × JsonValue)) (k : String), k ∈ requiredKeys →
      jlookup fields k = none → ∃ e, parseRecipeData fields = .error e) ∧
    (∀ (t d : String) (ms : List String) (ings : List (String × String))
        (instr : List String) (dets : List (String × String)) (k : String),
      k ∈ requiredKeys →
      parseRecipeData (removeKey (mkReplyFields t d ms ings instr dets) k)
        = .error (.keyMissing k)) := by
  constructor
  · intro fields k hk hnone
    cases hp : parseRecipeData fields with
    | error e => exact ⟨e, rfl⟩
    | ok r =>
      exfalso
      unfold parseRecipeData at hp
      cases he : evalArgs fields with
      | error e =>
        rw [he] at hp; simp only [exceptBind_error] at hp; exact Except.noConfusion hp
      | ok a =>
        have hsome := evalArgs_ok_isSome fields a he
        simp only [requiredKeys, List.mem_cons, List.not_mem_nil, or_false] at hk
        rcases hk with rfl | rfl | rfl | rfl <;> rw [hnone] at hsome <;> simp at hsome
  · intro t d ms ings instr dets k hk
    simp only [requiredKeys, List.mem_cons, List.not_mem_nil, or_false] at hk
    rcases hk with rfl | rfl | rfl | rfl <;>
      simp [parseRecipeData, evalArgs, removeKey, mkReplyFields, getKey, jlookup, asArr,
        exceptBind_ok, exceptBind_error, mapExcept_meta, mapExcept_ings, mapExcept_dets]

/-- Witness for C4: a reply with only a title fails, and a well-shaped
reply with `recipeInstructions` deleted fails naming
`recipeInstructions`. -/
theorem parse_missing_required_key_witness :
    (∃ e, parseRecipeData [("recipeTitle", JsonValue.jstr "t")] = .error e) ∧
    parseRecipeData (removeKey (mkReplyFields "t" "d" [] [] [] []) "recipeInstructions")
      = .error (.keyMissing "recipeInstructions") :=
  ⟨parse_missing_required_key.1 [("recipeTitle", JsonValue.jstr "t")] "recipeInstructions"
      (by decide) rfl,
   parse_missing_required_key.2 "t" "d" [] [] [] [] "recipeInstructions" (by decide)⟩

/-! ## Community Vibes service (`app/services/community_vibes_service.py`)

Only the parts the claims touch are embedded: the rating store and
`_update_recipe_rating_stats` (called by `rate_recipe`), and `get_recipes`
with the `CommunityVibeRecipeList` validation from
`app/models/community_vibes.py`.  Python floats are modelled as exact
rationals; Python `round(x, 2)` rounds half to even. -/

/-- Recipe identifiers (`str(recipe_id)`). -/
abbrev RecipeId := String

/-- One row of the `recipe_ratings` table (the fields the aggregation
reads). -/
structure RatingRecord where
  recipe_id : RecipeId
  rating : Nat
deriving DecidableEq

/-- The database state the rating path touches: the ratings table and, per
recipe, the stored `(rating_average, rating_count)` columns. -/
structure VibesDB where
  ratings : List RatingRecord
  recipeStats : RecipeId → Option ℚ × Nat

/-- Round-half-to-even to an integer, as Python `round` does. -/
def roundHalfEven (q : ℚ) : ℤ :=
  if q - ⌊q⌋ < 1/2 then ⌊q⌋
  else if q - ⌊q⌋ > 1/2 then ⌊q⌋ + 1
  else if ⌊q⌋ % 2 = 0 then ⌊q⌋ else ⌊q⌋ + 1

/-- Python `round(x, 2)` on an exact rational. -/
def pyRound2 (q : ℚ) : ℚ := (roundHalfEven (q * 100) : ℚ) / 100

/-- `_update_recipe_rating_stats` (lines 402–424): fetch all ratings of the
recipe, and if there are any, store the 2-decimal-rounded mean and the
count. -/
def updateRecipeRatingStats (db : VibesDB) (rid : RecipeId) : VibesDB :=
  let rs := db.ratings.filter fun r => r.recipe_id == rid
  if rs.isEmpty then db
  else
    { db with recipeStats := fun i =>
        if i = rid then
          (some (pyRound2 (((rs.map RatingRecord.rating).sum : ℚ) / (rs.length : ℚ))),
            rs.length)
        else db.recipeStats i }

/-- `rate_recipe` (lines 218–235): insert the rating row, then update the
recipe's rating statistics. -/
def rateRecipe (db : VibesDB) (r : RatingRecord) : VibesDB :=
  updateRecipeRatingStats { db with ratings := db.ratings ++ [r] } r.recipe_id

/-- Submit a sequence of ratings for one recipe, in order. -/
def submitRatings (db : VibesDB) (rid : RecipeId) (l : List Nat) : VibesDB :=
  l.foldl (fun d v => rateRecipe d ⟨rid, v⟩) db

/-- A database with no ratings and no stored statistics. -/
def vibesEmpty : VibesDB := ⟨[], fun _ => (none, 0)⟩

/-- Updating statistics does not touch the ratings table. -/
theorem updateStats_ratings (db : VibesDB) (rid : RecipeId) :
    (updateRecipeRatingStats db rid).ratings = db.ratings := by
  simp only [updateRecipeRatingStats]
  split <;> rfl

/-- The ratings table after a sequence of submissions. -/
theorem submitRatings_ratings (rid : RecipeId) (l : List Nat) :
    ∀ db : VibesDB, (submitRatings db rid l).ratings
      = db.ratings ++ l.map fun v => RatingRecord.mk rid v := by
  induction l with
  | nil => intro db; simp [submitRatings]
  | cons v t ih =>
    intro db
    have hstep : submitRatings db rid (v :: t)
        = submitRatings (rateRecipe db ⟨rid, v⟩) rid t := rfl
    rw [hstep, ih]
    simp [rateRecipe, updateStats_ratings]

/-- After one rating submission the stored statistics for that recipe are
the 2-decimal-rounded mean and the count of all of that recipe's ratings
now in the table. -/
theorem rateRecipe_stats (db : VibesDB) (rid : RecipeId) (v : Nat) :
    (rateRecipe db ⟨rid, v⟩).recipeStats rid
      = (some (pyRound2
          (((((rateRecipe db ⟨rid, v⟩).ratings.filter fun r => r.recipe_id == rid).map
              RatingRecord.rating).sum : ℚ)
            / ((((rateRecipe db ⟨rid, v⟩).ratings.filter fun r => r.recipe_id == rid)).length
              : ℚ))),
        ((rateRecipe db ⟨rid, v⟩).ratings.filter fun r => r.recipe_id == rid).length) := by
  have hrat : (rateRecipe db ⟨rid, v⟩).ratings = db.ratings ++ [⟨rid, v⟩] := by
    simp [rateRecipe, updateStats_ratings]
  rw [hrat]
  simp only [rateRecipe, updateRecipeRatingStats]
  rw [List.filter_append]
  simp only [List.filter_cons, List.filter_nil]
  simp

/-- C5: every rating submission recomputes the stored `rating_average` as
the 2-decimal-rounded arithmetic mean of all ratings in the table for
that recipe and `rating_count` as their number; in particular submitting
the ratings 5, 3, 4 in any order into an empty store yields average `4`
and count `3`. -/
theorem rating_aggregation :
    (∀ (db : VibesDB) (rid : RecipeId) (v : Nat),
      (rateRecipe db ⟨rid, v⟩).recipeStats rid
        = (some (pyRound2
            (((((rateRecipe db ⟨rid, v⟩).ratings.filter fun r => r.recipe_id == rid).map
                RatingRecord.rating).sum : ℚ)
              / ((((rateRecipe db ⟨rid, v⟩).ratings.filter fun r => r.recipe_id == rid)).length
                : ℚ))),
          ((rateRecipe db ⟨rid, v⟩).ratings.filter fun r => r.recipe_id == rid).length)) ∧
    (∀ l : List Nat, l.Perm [5, 3, 4] →
      (submitRatings vibesEmpty "r1" l).recipeStats "r1" = (some 4, 3)) := by
  constructor
  · exact rateRecipe_stats
  · intro l hperm
    have hne : l ≠ [] := by
      intro h
      rw [h] at hperm
      simpa using hperm.length_eq
    induction l using List.reverseRecOn with
    | nil => exact absurd rfl hne
    | append_singleton l' v _ =>
      have hfold : submitRatings vibesEmpty "r1" (l' ++ [v])
          = rateRecipe (submitRatings vibesEmpty "r1" l') ⟨"r1", v⟩ := by
        simp [submitRatings]
      have hr := rateRecipe_stats (submitRatings vibesEmpty "r1" l') "r1" v
      rw [hfold, hr]
      have hrat : (rateRecipe (submitRatings vibesEmpty "r1" l') ⟨"r1", v⟩).ratings
          = (l' ++ [v]).map fun u => RatingRecord.mk "r1" u := by
        rw [← hfold, submitRatings_ratings]
        simp [vibesEmpty]
      rw [hrat]
      have hfilter : ∀ u : List Nat,
          ((u.map fun w => RatingRecord.mk "r1" w).filter fun r => r.recipe_id == "r1")
            = u.map fun w => RatingRecord.mk "r1" w := by
        intro u
        induction u with
        | nil => rfl
        | cons a t ih => simp [ih]
      rw [hfilter]
      have hsum : (l' ++ [v]).sum = 12 := by
        rw [hperm.sum_eq]; rfl
      have hlen : (l' ++ [v]).length = 3 := by
        rw [hperm.length_eq]; rfl
      rw [List.map_map]
      have hmapid : ((l' ++ [v]).map (RatingRecord.rating ∘ fun u => RatingRecord.mk "r1" u))
          = l' ++ [v] := by
        rw [show (RatingRecord.rating ∘ fun u => RatingRecord.mk "r1" u) = id from rfl,
          List.map_id]
      rw [List.length_map, hmapid, hsum, hlen]
      norm_num [pyRound2, roundHalfEven]

/-- Witness for C5 at the submission order 3, 4, 5. -/
theorem rating_aggregation_witness :
    (submitRatings vibesEmpty "r1" [3, 4, 5]).recipeStats "r1" = (some 4, 3) :=
  rating_aggregation.2 [3, 4, 5] (by decide)

/-! ### Paginated listing (`get_recipes`, lines 122–174) -/

/-- Python truthiness of an optional rational (`if filters.min_rating:`):
`None` and `0.0` are falsy. -/
def optNumTruthy (o : Option ℚ) : Bool :=
  match o with
  | none => false
  | some q => decide (q ≠ 0)

/-- Python truthiness of an optional integer: `None` and `0` are falsy. -/
def optNatTruthy (o : Option Nat) : Bool :=
  match o with
  | none => false
  | some n => n != 0

/-- The columns of a `community_vibes_recipes` row that `get_recipes` and
its filters read. -/
structure DbRecord where
  name : String
  description : String
  creator_name : Option String
  difficulty_level : Option String
  vibe : Option String
  is_featured : Bool
  is_public : Bool
  is_approved : Bool
  rating_average : Option ℚ
  prep_time_minutes : Option Nat
  tags : List String
deriving DecidableEq

/-- `CommunityVibeRecipeFilters` from `app/models/community_vibes.py` (the
fields `get_recipes` consults). -/
structure RecipeFilters where
  search : Option String
  tags : Option (List String)
  difficulty_level : Option String
  min_rating : Option ℚ
  creator_name : Option String
  vibe : Option String
  is_featured : Option Bool
  min_prep_time : Option Nat
  max_prep_time : Option Nat
deriving DecidableEq

/-- The database-level filters of `get_recipes` (lines 130–141):
`is_public`, `is_approved`, and — when truthy — creator, difficulty and
vibe equality, plus the explicit `is not None` check on `is_featured`. -/
def matchesDbFilters (filters : Option RecipeFilters) (r : DbRecord) : Bool :=
  r.is_public && r.is_approved &&
  (match filters with
   | none => true
   | some f =>
     (if optTruthy f.creator_name then r.creator_name == f.creator_name else true) &&
     (if optTruthy f.difficulty_level then r.difficulty_level == f.difficulty_level else true) &&
     (if optTruthy f.vibe then r.vibe == f.vibe else true) &&
     (match f.is_featured with
      | none => true
      | some b => r.is_featured == b))

/-- ASCII lowering for Python `.lower()` (the repository only compares
ASCII). -/
def strLower (s : String) : String := String.map Char.toLower s

/-- Python `needle in hay` on character lists. -/
def containsSub (needle : List Char) : List Char → Bool
  | [] => needle.isEmpty
  | c :: t => needle.isPrefixOf (c :: t) || containsSub needle t

/-- Python `needle in hay` for strings. -/
def pyIn (needle hay : String) : Bool := containsSub needle.data hay.data

/-- `_apply_advanced_filters` (lines 343–386): search, minimum rating, prep
time bounds and tags, each guarded by Python truthiness of the filter
value and of the record column. -/
def applyAdvancedFilters (recipes : List DbRecord) (filters : Option RecipeFilters) :
    List DbRecord :=
  match filters with
  | none => recipes
  | some f =>
    let filtered := recipes
    let filtered := if optTruthy f.search then
        filtered.filter fun r =>
          pyIn (strLower (f.search.getD "")) (strLower r.name)
          || pyIn (strLower (f.search.getD "")) (strLower r.description)
      else filtered
    let filtered := if optNumTruthy f.min_rating then
        filtered.filter fun r =>
          match r.rating_average with
          | some q => decide (q ≠ 0) && decide (f.min_rating.getD 0 ≤ q)
          | none => false
      else filtered
    let filtered := if optNatTruthy f.min_prep_time then
        filtered.filter fun r =>
          match r.prep_time_minutes with
          | some n => (n != 0) && (f.min_prep_time.getD 0 ≤ n)
          | none => false
      else filtered
    let filtered := if optNatTruthy f.max_prep_time then
        filtered.filter fun r =>
          match r.prep_time_minutes with
          | some n => (n != 0) && (n ≤ f.max_prep_time.getD 0)
          | none => false
      else filtered
    let filtered := if (match f.tags with | none => false | some ts => !ts.isEmpty) then
        filtered.filter fun r =>
          !r.tags.isEmpty && (f.tags.getD []).any fun tag => r.tags.contains tag
      else filtered
    filtered

/-- The pydantic validation failures of `CommunityVibeRecipeList`
(`page ≥ 1`, `per_page ≥ 1`, `total_pages ≥ 1`), in field order. -/
inductive ListValidationError where
  | pageLow
  | perPageLow
  | totalPagesLow
deriving DecidableEq

/-- `CommunityVibeRecipeList` from `app/models/community_vibes.py`. -/
structure RecipeListResult where
  recipes : List DbRecord
  total_count : Nat
  page : Nat
  per_page : Nat
  total_pages : Nat
deriving DecidableEq

/-- Constructing a `CommunityVibeRecipeList`: pydantic checks the `ge`
constraints (`total_count ≥ 0` holds by the `Nat` type). -/
def mkRecipeList (recipes : List DbRecord) (totalCount page perPage totalPages : Nat) :
    Except ListValidationError RecipeListResult :=
  if page < 1 then .error .pageLow
  else if perPage < 1 then .error .perPageLow
  else if totalPages < 1 then .error .totalPagesLow
  else .ok ⟨recipes, totalCount, page, perPage, totalPages⟩

/-- `get_recipes` (lines 122–170): database filters, advanced filters,
`total_pages = math.ceil(total_count / per_page)` (for naturals with
`per_page ≥ 1` this is `(total_count + per_page - 1) / per_page`), the
page slice, and the validated response.  (`page` and `per_page` arrive
from the route as positive query parameters.) -/
def getRecipes (db : List DbRecord) (filters : Option RecipeFilters)
    (page perPage : Nat) : Except ListValidationError RecipeListResult :=
  let allRecipes := db.filter (matchesDbFilters filters)
  let filtered := applyAdvancedFilters allRecipes filters
  let totalCount := filtered.length
  let totalPages := (totalCount + perPage - 1) / perPage
  let offset := (page - 1) * perPage
  let paginated := (filtered.drop offset).take perPage
  mkRecipeList paginated totalCount page perPage totalPages

/-- C10: when no recipe survives the filters, `get_recipes` does not return
an empty page: `total_pages` is `ceil(0 / per_page) = 0`, which violates
the `total_pages ≥ 1` constraint of the response model, so the call
fails with the validation error instead of returning a zero-recipe
list. -/
theorem getRecipes_no_matches (db : List DbRecord) (filters : Option RecipeFilters)
    (page perPage : Nat) (hpage : 1 ≤ page) (hper : 1 ≤ perPage)
    (hempty : applyAdvancedFilters (db.filter (matchesDbFilters filters)) filters = []) :
    (0 + perPage - 1) / perPage = 0 ∧
    getRecipes db filters page perPage = .error .totalPagesLow := by
  have hceil : (perPage - 1) / perPage = 0 := Nat.div_eq_of_lt (by omega)
  have hp1 : ¬ page < 1 := by omega
  have hp2 : ¬ perPage < 1 := by omega
  refine ⟨by simpa using hceil, ?_⟩
  simp [getRecipes, hempty, mkRecipeList, hceil, hp1, hp2]

/-- Witness for C10 on an empty database with default pagination. -/
theorem getRecipes_no_matches_witness :
    (0 + 20 - 1) / 20 = 0 ∧ getRecipes [] none 1 20 = .error .totalPagesLow :=
  getRecipes_no_matches [] none 1 20 (by decide) (by decide) rfl

end VibeBar
